import Mathlib

/-!
Verification development for the Protector.Net real-time event client
(`custom_components/protector_net/ws.py`).  The definitions below are a
shallow embedding of the client's pure logic: frame decoding, the
reconnect backoff schedule, the topology mapper, identifier resolution,
message classification and the per-frame event dispatch.  Machine floats
of the source (loop timestamps, backoff delays) are modelled as rationals;
JSON values are modelled by an explicit inductive type, and Python dicts
by association lists with replace-on-insert semantics (matching dict
update/lookup behaviour and insertion order).
-/

namespace ProtectorNet

/-- Record separator used by the SignalR JSON framing (`SIGNALR_RS` in the
source). -/
def SIGNALR_RS : Char := '\x1e'

/-- Model of Python's `str.split(sep)` for the single-character record
separator: every occurrence of the separator starts a new fragment, so
adjacent/trailing separators produce empty fragments. -/
def splitRS : List Char → List (List Char)
  | [] => [[]]
  | c :: t =>
      if c = SIGNALR_RS then [] :: splitRS t
      else
        match splitRS t with
        | h :: r => (c :: h) :: r
        | [] => [[c]]

/-- Decode step of `SignalRClient._handle_text`: split the payload on the
record separator and keep only non-empty fragments
(`[f for f in payload.split(SIGNALR_RS) if f]`). -/
def decodeFrames (payload : String) : List String :=
  ((splitRS payload.data).map (fun l => String.mk l)).filter (fun f => f ≠ "")

/-! ## Reconnect backoff (`SignalRClient._runner`)

The runner keeps a mutable `backoff` starting at `base_backoff = 5.0`;
on each consecutive failure it sleeps `min(backoff, max_backoff) +
random.uniform(0, 1.5)` and then sets `backoff = min(backoff * 2.0,
max_backoff)` with `max_backoff = 30.0`.  `backoffAfter k` is the value
of the `backoff` variable after `k` consecutive failures have been
handled. -/

def base_backoff : Rat := 5

def max_backoff : Rat := 30

/-- Value of the runner's `backoff` variable after `k` consecutive
failures (reset to `base_backoff` whenever a connection reaches
`running`). -/
def backoffAfter : Nat → Rat
  | 0 => base_backoff
  | k + 1 => min (backoffAfter k * 2) max_backoff

/-- Pre-jitter sleep before the `n`-th retry (`n ≥ 1`):
`min(backoff, max_backoff)` with `backoff = backoffAfter (n-1)`. -/
def nthRetryDelay (n : Nat) : Rat := min (backoffAfter (n - 1)) max_backoff

/-- Full wait before the `n`-th retry, given the jitter value `j` drawn
from `random.uniform(0, 1.5)` (modelled as an arbitrary rational in
`[0, 3/2)`). -/
def sleepFor (n : Nat) (j : Rat) : Rat := nthRetryDelay n + j

/-! ## Character and string helpers

These model the Python string primitives the client relies on:
`str.strip`, `str.lower`, `str.upper`, the regex whitespace class `\s`,
substring containment (`in`), and splitting.  All source inputs are
ASCII, so ASCII case mapping is faithful. -/

/-- Python's regex whitespace class `\s` (ASCII). -/
def isPySpace (c : Char) : Bool :=
  c = ' ' || c = '\t' || c = '\n' || c = '\r' || c = '\x0b' || c = '\x0c'

/-- Regex word-character class `\w` (ASCII), used for `\b` boundaries. -/
def isWordChar (c : Char) : Bool :=
  ('a' ≤ c && c ≤ 'z') || ('A' ≤ c && c ≤ 'Z') || ('0' ≤ c && c ≤ '9') || c = '_'

def isDigitChar (c : Char) : Bool := '0' ≤ c && c ≤ '9'

def isLowerAZ (c : Char) : Bool := 'a' ≤ c && c ≤ 'z'

/-- Python `str.strip()`. -/
def pyStrip (s : String) : String :=
  String.mk (((s.data.dropWhile isPySpace).reverse.dropWhile isPySpace).reverse)

/-- Python `str.lower()` (ASCII inputs). -/
def pyLower (s : String) : String := String.mk (s.data.map Char.toLower)

/-- Python `str.upper()` (ASCII inputs). -/
def pyUpper (s : String) : String := String.mk (s.data.map Char.toUpper)

/-- Auxiliary for `re.sub(r"\s+", " ", s)`: the boolean records whether the
previous character was part of a whitespace run. -/
def collapseWsAux : Bool → List Char → List Char
  | _, [] => []
  | inRun, c :: t =>
      if isPySpace c then
        if inRun then collapseWsAux true t else ' ' :: collapseWsAux true t
      else c :: collapseWsAux false t

/-- Replace every whitespace run by a single space (`re.sub(r"\s+", " ", s)`). -/
def collapseWs (s : String) : String := String.mk (collapseWsAux false s.data)

/-- Substring containment: Python's `needle in hay` for strings. -/
def containsChars (needle : List Char) : List Char → Bool
  | [] => needle.isEmpty
  | c :: t => needle.isPrefixOf (c :: t) || containsChars needle t

/-- Python `sub in hay` on strings. -/
def strContains (hay sub : String) : Bool := containsChars sub.data hay.data

/-- Model of Python's `str.split(sep)` for a single-character separator:
every occurrence of the separator starts a new fragment, so adjacent and
trailing separators produce empty fragments. -/
def splitChar (sep : Char) : List Char → List (List Char)
  | [] => [[]]
  | c :: t =>
      if c = sep then [] :: splitChar sep t
      else
        match splitChar sep t with
        | h :: r => (c :: h) :: r
        | [] => [[c]]

/-- Join words with single spaces (inverse of splitting a normalized name). -/
def joinSpace : List String → String
  | [] => ""
  | [w] => w
  | w :: rest => w ++ " " ++ joinSpace rest

/-- Text before the first occurrence of the controller separator:
`str(sid).split("::", 1)[0]`. -/
def takeUntilColons : List Char → List Char
  | [] => []
  | ':' :: ':' :: _ => []
  | c :: t => c :: takeUntilColons t

/-- Controller prefix of a status id. -/
def ctrlRoot (s : String) : String := String.mk (takeUntilColons s.data)

/-! ## Association lists

Python dicts are modelled as association lists with replace-in-place
insertion, which preserves both dict lookup semantics (a key has one
binding) and dict insertion order on overwrite. -/

/-- Dict assignment `m[k] = v`: replace the existing binding in place, or
append a new one. -/
def alInsert {K V : Type} [DecidableEq K] (k : K) (v : V) : List (K × V) → List (K × V)
  | [] => [(k, v)]
  | (k', v') :: t => if k' = k then (k, v) :: t else (k', v') :: alInsert k v t

/-- Dict lookup `m.get(k)`. -/
def alLookup {K V : Type} [DecidableEq K] (k : K) : List (K × V) → Option V
  | [] => none
  | (k', v') :: t => if k' = k then some v' else alLookup k t

/-! ## JSON values

The frames on the wire are JSON; numbers are modelled as integers (every
JSON number appearing in the claims and in the client's field reads is
integral). -/

inductive Json where
  | null
  | bool (b : Bool)
  | num (n : Int)
  | str (s : String)
  | arr (elems : List Json)
  | obj (fields : List (String × Json))

/-- Dict field read `d.get(k)`.  A JSON `null` value and a missing key are
both Python `None`, which is exactly what `.get` gives the caller, so both
map to `none`. -/
def jGet : Json → String → Option Json
  | .obj fs, k =>
      match alLookup k fs with
      | some .null => none
      | v => v
  | _, _ => none

/-- Python truthiness of a field read. -/
def jTruthy : Option Json → Bool
  | none => false
  | some .null => false
  | some (.bool b) => b
  | some (.num n) => n != 0
  | some (.str s) => s != ""
  | some (.arr l) => !l.isEmpty
  | some (.obj l) => !l.isEmpty

/-- Python `str()` of a field read (`str(sid)` in the source); a missing
key reads as `None`, whose `str` is `"None"`. -/
def pyStrOf : Option Json → String
  | none => "None"
  | some .null => "None"
  | some (.bool b) => if b then "True" else "False"
  | some (.num n) => toString n
  | some (.str s) => s
  | some (.arr _) => "<list>"
  | some (.obj _) => "<dict>"

/-- Model of `(d.get(k) or "")` for string-valued fields.  Falsy values
read as `""`; non-string truthy values would raise in the source before
any event is produced, so they are outside the embedding and also read as
`""`. -/
def jStrOrEmpty : Option Json → String
  | some (.str s) => s
  | _ => ""

/-- Python `int(v)` under the source's `except (TypeError, ValueError)`
guard: integers pass through, booleans coerce, integral strings parse,
everything else yields `None`. -/
def toIntOpt : Json → Option Int
  | .num n => some n
  | .bool b => some (if b then 1 else 0)
  | .str s => s.toInt?
  | _ => none

/-- Whether a JSON value is a dict (`isinstance(x, dict)`). -/
def isObj : Json → Bool
  | .obj _ => true
  | _ => false

/-! ## JSON parsing (`json.loads`)

A fueled recursive-descent parser for the JSON subset the hub speaks:
objects, arrays, strings with the common escapes, integral numbers,
booleans and null.  Fractional/exponent numbers and `\u` escapes fail to
parse, as no frame in the claims carries them; any parse failure models a
`json.loads` exception. -/

def isJsonWs (c : Char) : Bool := c = ' ' || c = '\t' || c = '\n' || c = '\r'

def skipWsJ (cs : List Char) : List Char := cs.dropWhile isJsonWs

def escChar (e : Char) : Option Char :=
  if e = '"' then some '"'
  else if e = '\\' then some '\\'
  else if e = '/' then some '/'
  else if e = 'n' then some '\n'
  else if e = 't' then some '\t'
  else if e = 'r' then some '\r'
  else if e = 'b' then some '\x08'
  else if e = 'f' then some '\x0c'
  else none

/-- Parse the remainder of a JSON string after the opening quote. -/
def jsonStrAux : List Char → List Char → Option (String × List Char)
  | _, [] => none
  | acc, '\\' :: t =>
      match t with
      | [] => none
      | e :: t2 =>
          match escChar e with
          | some d => jsonStrAux (d :: acc) t2
          | none => none
  | acc, c :: t =>
      if c = '"' then some (String.mk acc.reverse, t) else jsonStrAux (c :: acc) t

/-- Accumulate a run of decimal digits. -/
def digitsToNat (acc : Nat) : List Char → Nat × List Char
  | [] => (acc, [])
  | c :: t =>
      if isDigitChar c then digitsToNat (acc * 10 + (c.toNat - 48)) t else (acc, c :: t)

/-- Parse an integral JSON number. -/
def jsonNumber (cs : List Char) : Option (Json × List Char) :=
  let p := match cs with
    | '-' :: t => (true, t)
    | _ => (false, cs)
  match p.2 with
  | [] => none
  | c :: _ =>
      if isDigitChar c then
        let d := digitsToNat 0 p.2
        match d.2 with
        | '.' :: _ => none
        | 'e' :: _ => none
        | 'E' :: _ => none
        | _ => some (Json.num (if p.1 then -(d.1 : Int) else (d.1 : Int)), d.2)
      else none

mutual

def jsonValue : Nat → List Char → Option (Json × List Char)
  | 0, _ => none
  | f + 1, cs =>
      match cs with
      | [] => none
      | c :: t =>
          if c = 'n' then
            if "ull".data.isPrefixOf t then some (Json.null, t.drop 3) else none
          else if c = 't' then
            if "rue".data.isPrefixOf t then some (Json.bool true, t.drop 3) else none
          else if c = 'f' then
            if "alse".data.isPrefixOf t then some (Json.bool false, t.drop 4) else none
          else if c = '"' then
            match jsonStrAux [] t with
            | some (s, r) => some (Json.str s, r)
            | none => none
          else if c = '\x7b' then
            match skipWsJ t with
            | '\x7d' :: r => some (Json.obj [], r)
            | t1 =>
                match jsonMembers f t1 with
                | some (ms, r) => some (Json.obj ms, r)
                | none => none
          else if c = '[' then
            match skipWsJ t with
            | ']' :: r => some (Json.arr [], r)
            | t1 =>
                match jsonElems f t1 with
                | some (es, r) => some (Json.arr es, r)
                | none => none
          else jsonNumber cs

def jsonElems : Nat → List Char → Option (List Json × List Char)
  | 0, _ => none
  | f + 1, cs =>
      match jsonValue f cs with
      | none => none
      | some (v, r) =>
          match skipWsJ r with
          | ',' :: r2 =>
              match jsonElems f (skipWsJ r2) with
              | some (vs, r3) => some (v :: vs, r3)
              | none => none
          | ']' :: r2 => some ([v], r2)
          | _ => none

def jsonMembers : Nat → List Char → Option (List (String × Json) × List Char)
  | 0, _ => none
  | f + 1, cs =>
      match cs with
      | '"' :: t =>
          match jsonStrAux [] t with
          | none => none
          | some (k, r) =>
              match skipWsJ r with
              | ':' :: r2 =>
                  match jsonValue f (skipWsJ r2) with
                  | none => none
                  | some (v, r3) =>
                      match skipWsJ r3 with
                      | ',' :: r5 =>
                          match jsonMembers f (skipWsJ r5) with
                          | some (ms, r6) => some ((k, v) :: ms, r6)
                          | none => none
                      | '\x7d' :: r5 => some ([(k, v)], r5)
                      | _ => none
              | _ => none
      | _ => none

end

/-- Model of `json.loads` on one frame fragment: `none` is a parse
exception. -/
def parseJson (s : String) : Option Json :=
  match jsonValue (2 * s.data.length + 2) (skipWsJ s.data) with
  | some (v, rest) => if (skipWsJ rest).isEmpty then some v else none
  | none => none

/-! ## Client state and normalized events

`WsState` carries the partition-scoped maps of `SignalRClient` that the
frame-processing path reads or writes, plus the loop clock
(`hass.loop.time()`, constant while one payload is handled).  Events model
what is sent on the per-entry door-status and door-log dispatch channels;
hub-status snapshots go to a separate diagnostics channel and carry no
door events, so they are not modelled. -/

/-- Partial door-status dict synthesized from a notification message. -/
structure SynthPayload where
  overridden : Option Bool := none
  timeZone : Option Int := none
  strike : Option Bool := none
  opener : Option Bool := none
deriving DecidableEq

/-- An event published on the per-entry dispatch channels. -/
inductive Event where
  /-- Real structured status frame forwarded on the door channel. -/
  | doorStatus (door_id : Int) (status : Json)
  /-- Synthesized status published on the door channel. -/
  | doorSynth (door_id : Int) (payload : SynthPayload)
  /-- Notification routed to the door-log channel. -/
  | doorLog (door_id : Int) (message : String) (ntype : String) (raw : Json)

/-- Door id an event is addressed to. -/
def Event.doorId : Event → Int
  | .doorStatus d _ => d
  | .doorSynth d _ => d
  | .doorLog d _ _ _ => d

structure WsState where
  allowed_door_ids : List Int
  door_map : List (String × Int × String)
  name_index : List (String × Int)
  reader_by_id : List (Int × Int)
  reader_by_name : List (String × Int)
  last_door_status_at : List (Int × Rat)
  baseline_reader_tz : List (Int × Int)
  subscribed_panels : List String
  now : Rat

/-- `SignalRClient._normalize_name`:
`re.sub(r"\s+", " ", (s or "").strip().lower())`. -/
def normalize_name (s : String) : String := collapseWs (pyLower (pyStrip s))

/-- Trailing `reader` / `reader <num>` removal
(`re.sub(r"\s+reader(\s+\d+)?$", "", s)` on a whitespace-normalized
string, word-wise).  The regex needs whitespace before `reader`, so a
bare leading `reader` survives. -/
def dropReaderWords (ws : List String) : List String :=
  match ws.reverse with
  | [] => ws
  | [_] => ws
  | a :: b :: rest =>
      if b = "reader" && a ≠ "" && a.data.all isDigitChar && rest ≠ [] then rest.reverse
      else if a = "reader" then (b :: rest).reverse
      else ws

/-- Trailing `door` / `gate` removal (`re.sub(r"\s+(door|gate)$", "", s)`). -/
def dropDoorGate (ws : List String) : List String :=
  match ws.reverse with
  | [] => ws
  | a :: rest =>
      if (a = "door" || a = "gate") && rest ≠ [] then rest.reverse else ws

/-- `SignalRClient._strip_reader_suffix`: normalize, then strip a trailing
`reader`/`reader N`, then a trailing `door`/`gate`, then strip again. -/
def strip_reader_suffix (s : String) : String :=
  let n := normalize_name s
  let ws := (splitChar ' ' n.data).map String.mk
  pyStrip (joinSpace (dropDoorGate (dropReaderWords ws)))

/-- `SignalRClient._recent_real_status`: a real status frame for the door
arrived within `window` seconds. -/
def recent_real_status (st : WsState) (door_id : Int) (window : Rat) : Bool :=
  match alLookup door_id st.last_door_status_at with
  | none => false
  | some ts => decide (st.now - ts ≤ window)

/-- Exact-match pass of `_door_id_from_text`: the first variant whose
`name_index` entry is truthy (a door id of `0` is falsy in Python and is
skipped here, deliberately mirroring the source's `if did:`). -/
def exactNameStage (idx : List (String × Int)) : List String → Option Int
  | [] => none
  | v :: rest =>
      match alLookup v idx with
      | some d => if d ≠ 0 then some d else exactNameStage idx rest
      | none => exactNameStage idx rest

/-- Substring-containment pass of `_door_id_from_text`: first index entry
containing the variant or contained in it, in index order. -/
def substrNameStage (idx : List (String × Int)) : List String → Option Int
  | [] => none
  | v :: rest =>
      match idx.find? (fun p => strContains v p.1 || strContains p.1 v) with
      | some p => some p.2
      | none => substrNameStage idx rest

/-- `SignalRClient._door_id_from_text`.  The source iterates a two-element
Python set `{norm, stripped}`; the embedding fixes the iteration order to
`norm` first (the claims do not depend on set iteration order). -/
def door_id_from_text (st : WsState) (txt : String) : Option Int :=
  let norm := normalize_name txt
  if norm = "" then none
  else
    let stripped := strip_reader_suffix norm
    let variants := if stripped ≠ "" && stripped ≠ norm then [norm, stripped] else [norm]
    match exactNameStage st.name_index variants with
    | some d => some d
    | none => substrNameStage st.name_index variants

/-- Reader-name lookups of `_door_id_from_notification`: raw lowercased
name, then suffix-stripped name, then general text resolution. -/
def readerByNameLookup (st : WsState) (src_name : String) : Option Int :=
  if src_name = "" then none
  else
    match alLookup (pyLower src_name) st.reader_by_name with
    | some rid => some rid
    | none =>
        let base := strip_reader_suffix src_name
        if base = "" then none
        else
          match alLookup base st.reader_by_name with
          | some rid => some rid
          | none => door_id_from_text st base

/-- Reader-source resolution of `_door_id_from_notification`: numeric id
via `reader_by_id` when present, else the name lookups. -/
def readerLookup (st : WsState) (src_id : Option Json) (src_name : String) : Option Int :=
  match src_id with
  | some (.num n) =>
      match alLookup n st.reader_by_id with
      | some d => some d
      | none => readerByNameLookup st src_name
  | _ => readerByNameLookup st src_name

/-- Tail of `\s+(.+)$` after a matched keyword: at least one whitespace
character, then a non-empty greedy capture.  When only whitespace
follows, the regex backtracks and captures the final whitespace character
(messages are assumed newline-free, so `.` and `$` are unrestricted). -/
def matchAfterKw (rest : List Char) : Option (List Char) :=
  let ws := rest.takeWhile isPySpace
  if ws.isEmpty then none
  else
    let after := rest.drop ws.length
    if after.isEmpty then
      if ws.length ≥ 2 then some (ws.drop (ws.length - 1)) else none
    else some after

/-- Case-insensitive literal match of `kw` at the head, returning the
remainder. -/
def kwAt (cs : List Char) (kw : List Char) : Option (List Char) :=
  if (cs.take kw.length).map Char.toLower = kw then some (cs.drop kw.length) else none

/-- Try one alternative of `\b(?:to|on|for)\s+(.+)$` at this position. -/
def tryKwAt (cs : List Char) (kw : List Char) : Option (List Char) :=
  match kwAt cs kw with
  | some rest => matchAfterKw rest
  | none => none

/-- All three alternatives at this position, in regex order. -/
def tryAllKwsAt (cs : List Char) : Option (List Char) :=
  match tryKwAt cs ['t', 'o'] with
  | some cap => some cap
  | none =>
      match tryKwAt cs ['o', 'n'] with
      | some cap => some cap
      | none => tryKwAt cs ['f', 'o', 'r']

/-- Leftmost match of `re.search(r"\b(?:to|on|for)\s+(.+)$", msg, re.I)`;
the boolean says whether the current position is at a word boundary. -/
def scanToOnFor : Bool → List Char → Option (List Char)
  | _, [] => none
  | bnd, c :: t =>
      match (if bnd then tryAllKwsAt (c :: t) else none) with
      | some cap => some cap
      | none => scanToOnFor (!(isWordChar c)) t

/-- `SignalRClient._door_id_from_notification`. -/
def door_id_from_notification (st : WsState) (note : Json) : Option Int :=
  let src_type := pyStrip (jStrOrEmpty (jGet note "SourceType"))
  let src_name := pyStrip (jStrOrEmpty (jGet note "SourceName"))
  let src_id := jGet note "SourceId"
  let msg := pyStrip (jStrOrEmpty (jGet note "Message"))
  let fromDoor : Option Int :=
    if pyLower src_type = "door" then
      match src_id with
      | some (.num n) => some n
      | _ => none
    else none
  match fromDoor with
  | some d => some d
  | none =>
      let fromReader : Option Int :=
        if pyLower src_type = "reader" then readerLookup st src_id src_name else none
      match fromReader with
      | some d => some d
      | none =>
          match door_id_from_text st src_name with
          | some d => some d
          | none =>
              match door_id_from_text st msg with
              | some d => some d
              | none =>
                  match scanToOnFor true msg.data with
                  | some cap => door_id_from_text st (String.mk cap)
                  | none => none

/-! ## Mode-phrase classification

Models the override-message branch of `_handle_text`:
`re.search(r"current state is\s+([a-z\s/]+)", msg_l)` followed by the
ordered word-boundary patterns in `modes_ordered`. -/

/-- Character class `[a-z\s/]` of the mode capture group. -/
def isModeClassChar (c : Char) : Bool := isLowerAZ c || isPySpace c || c = '/'

/-- Capture group after the literal `current state is`: at least one
whitespace character then a greedy non-empty `[a-z\s/]+` run, with the
regex backtracking into the whitespace when nothing else follows. -/
def modeCapAt (rest : List Char) : Option (List Char) :=
  let ws := rest.takeWhile isPySpace
  if ws.isEmpty then none
  else
    let after := rest.drop ws.length
    let cap := after.takeWhile isModeClassChar
    if !cap.isEmpty then some (ws ++ cap)
    else if ws.length ≥ 2 then some (ws.drop 1) else none

/-- Leftmost position where the full pattern
`current state is\s+([a-z\s/]+)` matches. -/
def scanModeCap : List Char → Option (List Char)
  | [] => none
  | c :: t =>
      if "current state is".data.isPrefixOf (c :: t) then
        match modeCapAt ((c :: t).drop "current state is".data.length) with
        | some cap => some cap
        | none => scanModeCap t
      else scanModeCap t

/-- `mode_txt` of the source: the stripped capture group, or `""` when the
pattern does not match anywhere. -/
def mode_txt_of (msg_l : String) : String :=
  match scanModeCap msg_l.data with
  | some cap => pyStrip (String.mk cap)
  | none => ""

/-- Word-boundary phrase match starting exactly at this position:
each word is a literal, consecutive words are separated by `\s+`, and a
word character must not follow the final word. -/
def matchWordsFrom : List (List Char) → List Char → Bool
  | [], _ => true
  | [w], cs =>
      w.isPrefixOf cs &&
        (match cs.drop w.length with
         | [] => true
         | c :: _ => !isWordChar c)
  | w :: w2 :: rest, cs =>
      w.isPrefixOf cs &&
        (let r := cs.drop w.length
         let ws := r.takeWhile isPySpace
         !ws.isEmpty && matchWordsFrom (w2 :: rest) (r.drop ws.length))

/-- Search for `\bw1\s+w2...\b` anywhere in the text; the boolean records
whether the current position is at a word boundary. -/
def searchPhraseAux (words : List (List Char)) : Bool → List Char → Bool
  | _, [] => false
  | bnd, c :: t =>
      (bnd && matchWordsFrom words (c :: t)) || searchPhraseAux words (!(isWordChar c)) t

/-- Whether `re.search` finds the whole-word phrase in `s`. -/
def phraseMatch (s : String) (phrase : String) : Bool :=
  searchPhraseAux ((splitChar ' ' phrase.data).filter (fun w => ¬ w.isEmpty)) true s.data

/-- The `modes_ordered` table evaluated top to bottom on the captured mode
text; `\bunlock(?:ed)?\b` is the disjunction of the two whole words. -/
def resolveTz (mode_txt : String) : Option Int :=
  if phraseMatch mode_txt "card or pin" then some 3
  else if phraseMatch mode_txt "card and pin" then some 4
  else if phraseMatch mode_txt "first credential in" then some 6
  else if phraseMatch mode_txt "dual credential" then some 7
  else if phraseMatch mode_txt "lockdown" then some 0
  else if phraseMatch mode_txt "unlock" || phraseMatch mode_txt "unlocked" then some 5
  else if phraseMatch mode_txt "pin" then some 2
  else if phraseMatch mode_txt "card" then some 1
  else none

/-- Payload built by the structured-override branch: `overridden=True`
always, the resolved mode index when one matched, and `strike`/`opener`
when that index is the fully-unlocked `5`. -/
def overridePayload (msg_l : String) : SynthPayload :=
  match resolveTz (mode_txt_of msg_l) with
  | none => { overridden := some true }
  | some t =>
      if t = 5 then { overridden := some true, timeZone := some 5, strike := some true, opener := some true }
      else { overridden := some true, timeZone := some t }

/-! ## Notification processing -/

/-- Synthesized payloads for one routed notification: the override
`if/elif` chain contributes at most one payload, and the independent
`DOOR_LOCK_STATE` check may contribute another. -/
def synthPayloads (st : WsState) (did : Int) (msg_l ntype : String) : List SynthPayload :=
  let overrideBranch : List SynthPayload :=
    if strContains msg_l "has been overridden" && strContains msg_l "current state is" then
      [overridePayload msg_l]
    else if strContains msg_l "unlock until resume" || strContains msg_l "unlock until next schedule"
        || strContains msg_l "timed override unlock" then
      [{ overridden := some true, timeZone := some 5, strike := some true, opener := some true }]
    else if strContains msg_l "cardorpin until resume" || strContains msg_l "card or pin until resume" then
      [{ overridden := some true, timeZone := some 3 }]
    else if strContains msg_l "resume schedule" || strContains msg_l "schedule resumed"
        || strContains msg_l "returned to schedule" || strContains msg_l "override cleared"
        || strContains msg_l "has resumed from an overridden state" then
      [{ overridden := some false, timeZone := some ((alLookup did st.baseline_reader_tz).getD 1) }]
    else []
  let lockBranch : List SynthPayload :=
    if ntype = "DOOR_LOCK_STATE" then
      if strContains msg_l "unlocked" then [{ strike := some true, opener := some true }]
      else if strContains msg_l "locked" then [{ strike := some false, opener := some false }]
      else []
    else []
  overrideBranch ++ lockBranch

/-- `_emit_status`: the recency guard suppresses the synthesized event
when a real status frame for the door arrived within the last second. -/
def emit_status (st : WsState) (did : Int) (p : SynthPayload) : List Event :=
  if recent_real_status st did 1 then [] else [Event.doorSynth did p]

/-- Processing of one notification dict against the per-frame allowlist:
resolve the door, apply the partition guard, publish the door-log event,
then the guarded synthesized payloads.  Unresolved notifications produce
no events (the `ACTIONPLAN_` mute and the debug log differ only in
logging). -/
def processNote (st : WsState) (allowed : List Int) (note : Json) : List Event :=
  let msg := jStrOrEmpty (jGet note "Message")
  let ntype := pyUpper (jStrOrEmpty (jGet note "NotificationType"))
  match door_id_from_notification st note with
  | none => []
  | some did =>
      if allowed ≠ [] ∧ did ∉ allowed then []
      else
        let msg_l := pyLower msg
        Event.doorLog did msg ntype note ::
          (synthPayloads st did msg_l ntype).flatMap (emit_status st did)

/-! ## Status-frame processing -/

/-- `type == 1` (Python's `==` also accepts `True`). -/
def isType1 (frame : Json) : Bool :=
  match jGet frame "type" with
  | some (.num n) => n == 1
  | some (.bool b) => b
  | _ => false

/-- `target == t`. -/
def targetIs (frame : Json) (t : String) : Bool :=
  match jGet frame "target" with
  | some (.str s) => s == t
  | _ => false

/-- `data.get("arguments") or []`, keeping only the list shape the loop
then indexes into. -/
def frameArgs (frame : Json) : List Json :=
  match jGet frame "arguments" with
  | some (.arr l) => l
  | _ => []

/-- `self._panels_from_map()`: distinct non-empty controller prefixes of
the door-map keys (the source sorts them; only membership matters here). -/
def panels_from_map (door_map : List (String × Int × String)) : List String :=
  ((door_map.map (fun kv => ctrlRoot kv.1)).filter (fun r => r ≠ "")).dedup

/-- `stype == "Door"`. -/
def stypeIsDoor (stJson : Json) : Bool :=
  match jGet stJson "statusType" with
  | some (.str s) => s == "Door"
  | _ => false

/-- Baseline reader-mode caching: when the frame carries a non-null
`timeZone` and is not overridden, remember the integer mode as the door's
non-overridden baseline. -/
def baselineUpdate (st : WsState) (door_id : Int) (stJson : Json) : WsState :=
  match jGet stJson "timeZone" with
  | some tzv =>
      if !(jTruthy (jGet stJson "overridden")) then
        match toIntOpt tzv with
        | some tzi => { st with baseline_reader_tz := alInsert door_id tzi st.baseline_reader_tz }
        | none => st
      else st
  | none => st

/-- Door-status branch of `_handle_text` for the first status argument.
Returns the updated state, the published events and the number of map
rebuilds triggered (`_build_door_map` calls; the rebuilt map contents
depend on external fetches and are not folded back into the state). -/
def processStatusArg (st : WsState) (stJson : Json) : WsState × List Event × Nat :=
  if stypeIsDoor stJson then
    let sid := jGet stJson "statusId"
    match alLookup (pyStrOf sid) st.door_map with
    | none =>
        let root := if jTruthy sid then ctrlRoot (pyStrOf sid) else ""
        if root ≠ "" ∧ root ∈ st.subscribed_panels then (st, [], 0)
        else (st, [], 1)
    | some door =>
        if st.allowed_door_ids ≠ [] ∧ door.1 ∉ st.allowed_door_ids then (st, [], 0)
        else
          let st1 := { st with last_door_status_at := alInsert door.1 st.now st.last_door_status_at }
          (baselineUpdate st1 door.1 stJson, [Event.doorStatus door.1 stJson], 0)
  else (st, [], 0)

/-- The `notes_iter` extraction: a list first argument contributes its
dict elements, a dict first argument is the single notification, and
otherwise every dict element of `arguments` is taken. -/
def notesIter (args : List Json) : List Json :=
  match args with
  | [] => []
  | first :: _ =>
      match first with
      | .arr l => l.filter isObj
      | .obj _ => [first]
      | _ => args.filter isObj

/-- Per-frame allowlist of the notification branch:
`self._allowed_door_ids or {door ids of the door map}`. -/
def noteAllowlist (st : WsState) : List Int :=
  if st.allowed_door_ids ≠ [] then st.allowed_door_ids
  else st.door_map.map (fun kv => kv.2.1)

/-- Dispatch of one decoded frame (`_handle_text` body after `json.loads`):
status frames, notification frames, everything else ignored. -/
def processFrame (st : WsState) (frame : Json) : WsState × List Event × Nat :=
  if isType1 frame && targetIs frame "status" then
    match frameArgs frame with
    | [] => (st, [], 0)
    | a :: _ => processStatusArg st a
  else if isType1 frame && targetIs frame "notification" then
    match frameArgs frame with
    | [] => (st, [], 0)
    | a :: rest =>
        (st, (notesIter (a :: rest)).flatMap (processNote st (noteAllowlist st)), 0)
  else (st, [], 0)

/-- Fold of `_handle_text` over the decoded fragments: a fragment that
fails to parse is skipped, every other fragment is processed with the
state threaded through. -/
def handleFrames (st : WsState) : List String → WsState × List Event × Nat
  | [] => (st, [], 0)
  | f :: rest =>
      match parseJson f with
      | none => handleFrames st rest
      | some j =>
          let r1 := processFrame st j
          let r2 := handleFrames r1.1 rest
          (r2.1, r1.2.1 ++ r2.2.1, r1.2.2 + r2.2.2)

/-- `SignalRClient._handle_text` for a whole payload. -/
def handle_text (st : WsState) (payload : String) : WsState × List Event × Nat :=
  handleFrames st (decodeFrames payload)

/-! ## Topology mapper (`SignalRClient._build_door_map`)

The overview tree is walked depth-first; door nodes inside the allowlist
contribute status-channel and name bindings and become the enclosing
context for their reader children; the explicit partition reader list is
then merged on top. -/

/-- A node of the system-overview tree (`Type`, `Id`, `Name`, `StatusId`,
`Nodes`). -/
inductive TNode where
  | node (ntype : String) (nid : Option Int) (name : Option String)
      (statusId : Option String) (subs : List TNode)

/-- Children of a node. -/
def TNode.subs : TNode → List TNode
  | .node _ _ _ _ s => s

/-- The four lookup tables built by `_build_door_map`. -/
structure DoorMaps where
  door_map : List (String × Int × String) := []
  name_index : List (String × Int) := []
  reader_by_id : List (Int × Int) := []
  reader_by_name : List (String × Int) := []

/-- Door-node bindings: `door_map[str(sid)]` when the status id is truthy
and `name_index[normalize(name)]` when the name is truthy. -/
def addDoorEntries (did : Int) (name : Option String) (sid : Option String)
    (m : DoorMaps) : DoorMaps :=
  let nameStr := match name with
    | some n => n
    | none => "None"
  let m1 := match sid with
    | some s => if s ≠ "" then { m with door_map := alInsert s (did, nameStr) m.door_map } else m
    | none => m
  match name with
  | some n =>
      if n ≠ "" then { m1 with name_index := alInsert (normalize_name n) did m1.name_index }
      else m1
  | none => m1

/-- Reader-node bindings under an enclosing door: numeric id, raw
lowercased name, and the suffix-stripped name when it differs. -/
def addReaderEntries (rid : Option Int) (name : Option String) (doorId : Int)
    (m : DoorMaps) : DoorMaps :=
  let m1 := match rid with
    | some r => { m with reader_by_id := alInsert r doorId m.reader_by_id }
    | none => m
  let rname := pyStrip (match name with
    | some n => n
    | none => "")
  if rname ≠ "" then
    let m2 := { m1 with reader_by_name := alInsert (pyLower rname) doorId m1.reader_by_name }
    let base := strip_reader_suffix rname
    if base ≠ "" ∧ base ≠ pyLower rname then
      { m2 with reader_by_name := alInsert base doorId m2.reader_by_name }
    else m2
  else m1

mutual

/-- The recursive `walk` on one child: a door in the allowlist adds its
bindings and becomes the context for its subtree; a door outside it
clears the context; a reader with a context adds its bindings; the
child's subtree is always walked. -/
def walkNode (allowed : List Int) : TNode → Option (Int × String) → DoorMaps → DoorMaps
  | TNode.node ntype nid name sid subs, cur, acc =>
      if ntype = "Door" then
        match nid with
        | some did =>
            if did ∈ allowed then
              let nameStr := match name with
                | some n => n
                | none => "None"
              walkSubs allowed subs (some (did, nameStr)) (addDoorEntries did name sid acc)
            else walkSubs allowed subs none acc
        | none => walkSubs allowed subs none acc
      else if ntype = "Reader" ∧ cur.isSome then
        match cur with
        | some door => walkSubs allowed subs cur (addReaderEntries nid name door.1 acc)
        | none => walkSubs allowed subs cur acc
      else walkSubs allowed subs cur acc

def walkSubs (allowed : List Int) : List TNode → Option (Int × String) → DoorMaps → DoorMaps
  | [], _, acc => acc
  | sub :: rest, cur, acc => walkSubs allowed rest cur (walkNode allowed sub cur acc)

end

/-- Tree pass over the overview's site nodes (`walk(site, None)` for each
site under the `Status` root). -/
def buildTreeMaps (allowed : List Int) (sites : List TNode) : DoorMaps :=
  sites.foldl (fun acc site => walkSubs allowed site.subs none acc) {}

/-- One row of the explicit partition reader list (`Id`, `DoorId`,
`Name`). -/
structure PartitionReader where
  rid : Option Int
  doorId : Option Int
  rname : String

/-- Merge one partition reader: rows without integer `Id`/`DoorId` are
skipped, rows whose door is outside a non-empty allowlist are skipped,
and the rest assign the by-id and by-name bindings. -/
def mergeReader (allowed : List Int) (m : DoorMaps) (rd : PartitionReader) : DoorMaps :=
  match rd.rid, rd.doorId with
  | some r, some d =>
      if allowed ≠ [] ∧ d ∉ allowed then m
      else
        let m1 := { m with reader_by_id := alInsert r d m.reader_by_id }
        let rname := pyStrip rd.rname
        if rname ≠ "" then
          let norm := pyLower rname
          let m2 := { m1 with reader_by_name := alInsert norm d m1.reader_by_name }
          let base := strip_reader_suffix rname
          if base ≠ "" ∧ base ≠ norm then
            { m2 with reader_by_name := alInsert base d m2.reader_by_name }
          else m2
        else m1
  | _, _ => m

/-- `_build_door_map` as a function of its fetched inputs: the tree pass,
then the partition reader merge in list order. -/
def build_door_map (allowed : List Int) (sites : List TNode)
    (extra : List PartitionReader) : DoorMaps :=
  extra.foldl (mergeReader allowed) (buildTreeMaps allowed sites)

/-- Whether a partition reader row passes the merge's validity and
allowlist checks and therefore writes bindings. -/
def rowApplies (allowed : List Int) (rd : PartitionReader) : Bool :=
  match rd.rid, rd.doorId with
  | some _, some d => !(decide (allowed ≠ [] ∧ d ∉ allowed))
  | _, _ => false

/-- The reader ids the partition-list merge writes. -/
def touchedIds (allowed : List Int) (extra : List PartitionReader) : List Int :=
  (extra.filter (rowApplies allowed)).filterMap (fun rd => rd.rid)

/-- The by-name keys one applying row writes. -/
def rowNameKeys (rd : PartitionReader) : List String :=
  let rname := pyStrip rd.rname
  if rname = "" then []
  else
    let norm := pyLower rname
    let base := strip_reader_suffix rname
    if base ≠ "" ∧ base ≠ norm then [norm, base] else [norm]

/-- The by-name keys the partition-list merge writes. -/
def touchedNames (allowed : List Int) (extra : List PartitionReader) : List String :=
  (extra.filter (rowApplies allowed)).flatMap rowNameKeys

/-! ## Concrete fixtures

Small concrete states and frames used to instantiate the theorems; the
sample partition has door 9 ("Front Door") with status channel `P1::d1`
on panel `P1` and reader 42. -/

/-- Degraded state after a failed allowed-doors fetch: empty allowlist and
empty maps. -/
def emptyState : WsState :=
  { allowed_door_ids := [], door_map := [], name_index := [], reader_by_id := [],
    reader_by_name := [], last_door_status_at := [], baseline_reader_tz := [],
    subscribed_panels := [], now := 0 }

/-- Sample single-door partition state. -/
def sampleState : WsState :=
  { allowed_door_ids := [9], door_map := [("P1::d1", (9, "Front Door"))],
    name_index := [("front door", 9)], reader_by_id := [(42, 9)],
    reader_by_name := [("front door reader", 9), ("front", 9)],
    last_door_status_at := [], baseline_reader_tz := [],
    subscribed_panels := ["P1"], now := 10 }

/-- Sample state with a real status frame for door 9 recorded at time 0
and the loop clock at `t`. -/
def guardState (t : Rat) : WsState :=
  { sampleState with last_door_status_at := [(9, 0)], now := t }

/-- Notification whose source is a door outside every map. -/
def noteDoor42 : Json :=
  Json.obj [("SourceType", Json.str "Door"), ("SourceId", Json.num 42),
    ("Message", Json.str "Access granted")]

/-- Notification frame wrapping `noteDoor42`. -/
def frameNote42 : Json :=
  Json.obj [("type", Json.num 1), ("target", Json.str "notification"),
    ("arguments", Json.arr [noteDoor42])]

def msgCardOrPin : String := "Door X has been overridden. Current state is Card or Pin"

/-- The claim C4 message as an in-partition door-sourced notification. -/
def noteCardOrPin : Json :=
  Json.obj [("SourceType", Json.str "Door"), ("SourceId", Json.num 9),
    ("Message", Json.str msgCardOrPin), ("NotificationType", Json.str "DOOR_OVERRIDE")]

/-- Notification frame wrapping `noteCardOrPin`. -/
def frameCardOrPin : Json :=
  Json.obj [("type", Json.num 1), ("target", Json.str "notification"),
    ("arguments", Json.arr [noteCardOrPin])]

def msgZebra : String := "Door X has been overridden. Current state is Zebra"

/-- Override notification whose mode phrase matches no known mode. -/
def noteZebra : Json :=
  Json.obj [("SourceType", Json.str "Door"), ("SourceId", Json.num 9),
    ("Message", Json.str msgZebra)]

/-- Status argument for the mapped channel `P1::d1`. -/
def statusArgKnown : Json :=
  Json.obj [("statusType", Json.str "Door"), ("statusId", Json.str "P1::d1"),
    ("strike", Json.bool true), ("timeZone", Json.num 5), ("overridden", Json.bool false)]

/-- Unknown status id on the subscribed panel `P1`. -/
def statusArgSubUnknown : Json :=
  Json.obj [("statusType", Json.str "Door"), ("statusId", Json.str "P1::zz")]

/-- Unknown status id on an unsubscribed panel. -/
def statusArgUnsubUnknown : Json :=
  Json.obj [("statusType", Json.str "Door"), ("statusId", Json.str "PANEL-9::zz")]

def batchNote1 : Json :=
  Json.obj [("SourceType", Json.str "Door"), ("SourceId", Json.num 9),
    ("Message", Json.str "m1")]

def batchNote2 : Json :=
  Json.obj [("SourceType", Json.str "Door"), ("SourceId", Json.num 9),
    ("Message", Json.str "m2")]

/-- Notification frame whose single argument is a batch list holding two
notification dicts and a non-dict element. -/
def frameBatch : Json :=
  Json.obj [("type", Json.num 1), ("target", Json.str "notification"),
    ("arguments", Json.arr [Json.arr [batchNote1, Json.num 7, batchNote2]])]

/-- Overview tree for the merge claim: site containing allowed door 10
with reader 5 named "Front Reader". -/
def mergeTree : List TNode :=
  [TNode.node "Site" (some 1) (some "Main") none
    [TNode.node "Door" (some 10) (some "Front") (some "P1::d1")
      [TNode.node "Reader" (some 5) (some "Front Reader") none []]]]

/-- Partition reader row rebinding reader 5 to the other allowed door 11. -/
def mergeExtra : List PartitionReader := [⟨some 5, some 11, "Front Reader"⟩]

theorem backoffAfter_eq (k : Nat) : backoffAfter k = min (5 * 2 ^ k) 30 := by
  induction k with
  | zero => simp [backoffAfter, base_backoff]; norm_num
  | succ k ih =>
      rw [backoffAfter, ih, max_backoff]
      rcases le_total (5 * 2 ^ k : Rat) 30 with h | h
      · rw [min_eq_left h, pow_succ]
        ring_nf
      · rw [min_eq_right h]
        have h2 : (30 : Rat) ≤ 5 * 2 ^ (k + 1) := by
          calc (30 : Rat) ≤ 2 * 30 := by norm_num
          _ ≤ 2 * (5 * 2 ^ k) := by nlinarith
          _ = 5 * 2 ^ (k + 1) := by rw [pow_succ]; ring
        rw [min_eq_right h2]
        norm_num

/-- C2: the n-th consecutive retry delay before jitter equals
`min(5 * 2^(n-1), 30)`, and the jitter added on top of it is the uniform
sample in `[0, 1.5)`: the realised wait exceeds the pre-jitter delay by
exactly that sample, hence by a value in `[0, 3/2)`. -/
theorem c2_backoff_schedule (n : Nat) (_hn : 1 ≤ n) :
    nthRetryDelay n = min (5 * 2 ^ (n - 1)) 30 ∧
    ∀ j : Rat, 0 ≤ j → j < 3 / 2 →
      0 ≤ sleepFor n j - nthRetryDelay n ∧ sleepFor n j - nthRetryDelay n < 3 / 2 := by
  constructor
  · rw [nthRetryDelay, backoffAfter_eq, max_backoff, min_assoc, min_self]
  · intro j h0 h1
    constructor
    · simp [sleepFor]
      linarith
    · simp [sleepFor]
      linarith

/-- Witness for C2 at `n = 4`, `j = 1`: the fourth delay hits the cap. -/
theorem c2_backoff_schedule_witness :
    nthRetryDelay 4 = min (5 * 2 ^ (4 - 1)) 30 ∧
    0 ≤ sleepFor 4 1 - nthRetryDelay 4 ∧ sleepFor 4 1 - nthRetryDelay 4 < 3 / 2 := by
  have h := c2_backoff_schedule 4 (by norm_num)
  exact ⟨h.1, h.2 1 (by norm_num) (by norm_num)⟩

/-- C8: decoding the two-record payload yields exactly the two JSON
fragments, in order, and the empty fragment after the trailing separator
is discarded. -/
theorem c8_decode_two_frames :
    decodeFrames "\x7b\"a\":1\x7d\x1e\x7b\"b\":2\x7d\x1e" =
      ["\x7b\"a\":1\x7d", "\x7b\"b\":2\x7d"] := by
  decide

/-- C5: a synthesized status event for a door is suppressed exactly when
the recorded real-status timestamp for that door is within one time-unit
of the clock, and is published otherwise (also when no timestamp was ever
recorded). -/
theorem c5_recency_guard (st : WsState) (did : Int) (T : Rat) (p : SynthPayload) :
    (alLookup did st.last_door_status_at = some T →
      ((st.now - T ≤ 1 → emit_status st did p = []) ∧
       (1 < st.now - T → emit_status st did p = [Event.doorSynth did p]))) ∧
    (alLookup did st.last_door_status_at = none →
      emit_status st did p = [Event.doorSynth did p]) := by
  unfold emit_status recent_real_status
  constructor
  · intro hT
    rw [hT]
    constructor
    · intro hle
      simp [hle]
    · intro hgt
      simp [not_le.mpr hgt]
  · intro hN
    rw [hN]
    simp

/-- Witness for C5 on door 9 with the real frame at `T = 0`: a synthesized
event at `T + 1/2` is suppressed, one at `T + 2` is published. -/
theorem c5_recency_guard_witness :
    emit_status (guardState (1 / 2)) 9 { overridden := some true } = [] ∧
    emit_status (guardState 2) 9 { overridden := some true } =
      [Event.doorSynth 9 { overridden := some true }] := by
  constructor
  · exact ((c5_recency_guard (guardState (1 / 2)) 9 0 { overridden := some true }).1
      (by rfl)).1 (by norm_num [guardState, sampleState])
  · exact ((c5_recency_guard (guardState 2) 9 0 { overridden := some true }).1
      (by rfl)).2 (by norm_num [guardState, sampleState])

/-- C7 counterexample: the override notification `noteZebra` resolves to
in-partition door 9, its mode phrase matches no known mode, and the
synthesized status event is not dropped — a `doorSynth` event carrying
only `overridden=true` is published. -/
theorem c7_counterexample :
    resolveTz (mode_txt_of (pyLower msgZebra)) = none ∧
    processNote sampleState (noteAllowlist sampleState) noteZebra =
      [Event.doorLog 9 msgZebra "" noteZebra,
       Event.doorSynth 9 { overridden := some true }] := by
  constructor
  · rfl
  · rfl

/-- C7 amended: when both override phrases are present but no mode phrase
matches, the classifier does not drop the synthesized event; absent a
recent real status (and outside the independent lock-state branch) it
publishes exactly one synthesized event carrying only `overridden=true`
and no mode index. -/
theorem c7_unmatched_mode_still_published (st : WsState) (did : Int) (msg_l ntype : String)
    (h1 : strContains msg_l "has been overridden" = true)
    (h2 : strContains msg_l "current state is" = true)
    (h3 : resolveTz (mode_txt_of msg_l) = none)
    (h4 : ntype ≠ "DOOR_LOCK_STATE")
    (h5 : recent_real_status st did 1 = false) :
    (synthPayloads st did msg_l ntype).flatMap (emit_status st did) =
      [Event.doorSynth did { overridden := some true }] := by
  simp [synthPayloads, h1, h2, h4, overridePayload, h3, emit_status, h5]

/-- Witness for C7 on the `noteZebra` message in the sample state. -/
theorem c7_unmatched_mode_witness :
    (synthPayloads sampleState 9 (pyLower msgZebra) "").flatMap (emit_status sampleState 9) =
      [Event.doorSynth 9 { overridden := some true }] :=
  c7_unmatched_mode_still_published sampleState 9 (pyLower msgZebra) ""
    (by rfl) (by rfl) (by rfl) (by decide) (by rfl)

/-- A fragment that fails to parse contributes nothing: state, events and
rebuild count are as if the fragment were absent. -/
theorem handleFrames_skips_bad (st : WsState) (fs1 fs2 : List String) (b : String)
    (hb : parseJson b = none) :
    handleFrames st (fs1 ++ b :: fs2) = handleFrames st (fs1 ++ fs2) := by
  induction fs1 generalizing st with
  | nil => simp [handleFrames, hb]
  | cons f rest ih =>
      simp only [List.cons_append, handleFrames]
      cases parseJson f with
      | none => exact ih st
      | some j => simp only [List.append_eq, ih]

/-- C9: a payload containing a fragment that is not valid JSON is handled
without raising; the bad fragment emits no event and changes no state,
and every other fragment of the payload is decoded and processed exactly
as if the bad fragment were absent. -/
theorem c9_bad_fragment_skipped (st : WsState) (payload : String)
    (fs1 fs2 : List String) (b : String)
    (hdec : decodeFrames payload = fs1 ++ b :: fs2)
    (hb : parseJson b = none) :
    handle_text st payload = handleFrames st (fs1 ++ fs2) := by
  rw [handle_text, hdec]
  exact handleFrames_skips_bad st fs1 fs2 b hb

/-- Witness for C9: a payload whose first fragment is garbage processes
exactly like the payload holding only the valid notification frame. -/
theorem c9_bad_fragment_witness :
    handle_text emptyState
        "notjson\x1e\x7b\"type\":1,\"target\":\"notification\",\"arguments\":[\x7b\"SourceType\":\"Door\",\"SourceId\":7,\"Message\":\"x\"\x7d]\x7d" =
      handleFrames emptyState
        ["\x7b\"type\":1,\"target\":\"notification\",\"arguments\":[\x7b\"SourceType\":\"Door\",\"SourceId\":7,\"Message\":\"x\"\x7d]\x7d"] :=
  c9_bad_fragment_skipped emptyState _ []
    ["\x7b\"type\":1,\"target\":\"notification\",\"arguments\":[\x7b\"SourceType\":\"Door\",\"SourceId\":7,\"Message\":\"x\"\x7d]\x7d"]
    "notjson" (by decide) (by rfl)

/-- Every event produced by the guarded synthesis loop is addressed to the
resolved door. -/
theorem doorId_of_emit (st : WsState) (did : Int) (ps : List SynthPayload) :
    ∀ e ∈ ps.flatMap (emit_status st did), e.doorId = did := by
  intro e he
  rw [List.mem_flatMap] at he
  obtain ⟨p, _, hep⟩ := he
  unfold emit_status at hep
  split at hep
  · exact absurd hep (List.not_mem_nil e)
  · rw [List.mem_singleton] at hep
    subst hep
    rfl

/-- With a non-empty per-frame allowlist, every event a notification
produces is addressed to a door inside it. -/
theorem processNote_doorId_mem (st : WsState) (allowed : List Int) (note : Json)
    (h : allowed ≠ []) :
    ∀ e ∈ processNote st allowed note, e.doorId ∈ allowed := by
  intro e he
  simp only [processNote] at he
  split at he
  · exact absurd he (List.not_mem_nil e)
  · rename_i did
    split at he
    · exact absurd he (List.not_mem_nil e)
    · rename_i hg
      push_neg at hg
      rcases List.mem_cons.mp he with rfl | he2
      · exact hg h
      · rw [doorId_of_emit st _ _ e he2]
        exact hg h

/-- With a non-empty partition allowlist, every event a status frame
produces is addressed to a door inside it. -/
theorem processStatusArg_doorId_mem (st : WsState) (a : Json)
    (h : st.allowed_door_ids ≠ []) :
    ∀ e ∈ (processStatusArg st a).2.1, e.doorId ∈ st.allowed_door_ids := by
  intro e he
  simp only [processStatusArg] at he
  split at he
  · split at he
    · repeat' split at he
      all_goals exact absurd he (List.not_mem_nil e)
    · split at he
      · exact absurd he (List.not_mem_nil e)
      · rename_i hg
        push_neg at hg
        rw [List.mem_singleton] at he
        subst he
        exact hg h
  · exact absurd he (List.not_mem_nil e)

/-- C1 amended: whenever the configured partition allowlist is non-empty,
every event a processed frame publishes on the door-status or door-log
channels is addressed to a door inside the allowlist; doors outside the
partition produce no events. -/
theorem c1_partition_isolation (st : WsState) (frame : Json)
    (h : st.allowed_door_ids ≠ []) :
    ∀ e ∈ (processFrame st frame).2.1, e.doorId ∈ st.allowed_door_ids := by
  intro e he
  simp only [processFrame] at he
  split at he
  · split at he
    · exact absurd he (List.not_mem_nil e)
    · exact processStatusArg_doorId_mem st _ h e he
  · split at he
    · split at he
      · exact absurd he (List.not_mem_nil e)
      · rw [List.mem_flatMap] at he
        obtain ⟨note, _, hnote⟩ := he
        have hallow : noteAllowlist st = st.allowed_door_ids := by
          rw [noteAllowlist, if_pos h]
        rw [hallow] at hnote
        exact processNote_doorId_mem st _ note h e hnote
    · exact absurd he (List.not_mem_nil e)

/-- C1 counterexample: in the degraded state with an empty allowlist every
door id is outside the allowlist, yet a door-sourced notification for
door 42 still publishes a `doorLog` event for it. -/
theorem c1_counterexample :
    (42 : Int) ∉ emptyState.allowed_door_ids ∧
    (processFrame emptyState frameNote42).2.1 =
      [Event.doorLog 42 "Access granted" "" noteDoor42] := by
  constructor
  · decide
  · rfl

/-- Witness for C1 on the sample partition: the door-log event published
for the `noteCardOrPin` frame is addressed inside the allowlist. -/
theorem c1_partition_isolation_witness :
    Event.doorId (Event.doorLog 9 msgCardOrPin "DOOR_OVERRIDE" noteCardOrPin) ∈
      sampleState.allowed_door_ids := by
  have hlist : (processFrame sampleState frameCardOrPin).2.1 =
      Event.doorLog 9 msgCardOrPin "DOOR_OVERRIDE" noteCardOrPin ::
        [Event.doorSynth 9 { overridden := some true, timeZone := some 3 }] := rfl
  exact c1_partition_isolation sampleState frameCardOrPin (by decide) _
    (by rw [hlist]; exact List.mem_cons_self _ _)

/-- The derived panel subscription list never contains the empty prefix. -/
theorem mem_panels_ne (m : List (String × Int × String)) (x : String)
    (hx : x ∈ panels_from_map m) : x ≠ "" := by
  unfold panels_from_map at hx
  rw [List.mem_dedup, List.mem_filter] at hx
  simpa using hx.2

/-- C3: a door-type status frame whose `statusId` is absent from the
status-channel map is dropped with no rebuild when its controller prefix
is subscribed, and dropped with exactly one map rebuild when the prefix
is not subscribed (the subscription list being the one derived from the
current map, as the runner sets it). -/
theorem c3_unknown_status_rebuild (st : WsState) (a : Json) (s : String)
    (htype : stypeIsDoor a = true)
    (hsid : jGet a "statusId" = some (Json.str s))
    (hmiss : alLookup s st.door_map = none)
    (hsub : st.subscribed_panels = panels_from_map st.door_map) :
    (ctrlRoot s ∈ st.subscribed_panels → processStatusArg st a = (st, [], 0)) ∧
    (ctrlRoot s ∉ st.subscribed_panels → processStatusArg st a = (st, [], 1)) := by
  have hpy : pyStrOf (jGet a "statusId") = s := by rw [hsid]; rfl
  have hred : processStatusArg st a =
      (if (if jTruthy (jGet a "statusId") then ctrlRoot s else "") ≠ "" ∧
          (if jTruthy (jGet a "statusId") then ctrlRoot s else "") ∈ st.subscribed_panels
       then (st, ([], 0)) else (st, ([], 1))) := by
    simp only [processStatusArg, htype, if_true, hpy, hmiss]
  constructor
  · intro hin
    have hne : ctrlRoot s ≠ "" := by
      rw [hsub] at hin
      exact mem_panels_ne _ _ hin
    have hsne : s ≠ "" := by
      intro h0
      exact hne (by rw [h0]; rfl)
    have htr : jTruthy (jGet a "statusId") = true := by
      rw [hsid]
      simp [jTruthy, hsne]
    rw [hred, htr]
    simp [hne, hin]
  · intro hout
    by_cases hs0 : s = ""
    · have htr : jTruthy (jGet a "statusId") = false := by
        rw [hsid, hs0]
        simp [jTruthy]
      rw [hred, htr]
      simp
    · have htr : jTruthy (jGet a "statusId") = true := by
        rw [hsid]
        simp [jTruthy, hs0]
      rw [hred, htr]
      simp [hout]

/-- Witness for C3: an unknown id on the subscribed panel `P1` is dropped
without rebuild; one on the unsubscribed panel `PANEL-9` triggers exactly
one rebuild. -/
theorem c3_unknown_status_rebuild_witness :
    processStatusArg sampleState statusArgSubUnknown = (sampleState, [], 0) ∧
    processStatusArg sampleState statusArgUnsubUnknown = (sampleState, [], 1) := by
  constructor
  · exact (c3_unknown_status_rebuild sampleState statusArgSubUnknown "P1::zz"
      (by rfl) (by rfl) (by rfl) (by rfl)).1 (by decide)
  · exact (c3_unknown_status_rebuild sampleState statusArgUnsubUnknown "PANEL-9::zz"
      (by rfl) (by rfl) (by rfl) (by rfl)).2 (by decide)

/-- C4: the "Card or Pin" override message synthesizes `overridden=true`
with mode index 3 (card-or-pin), not 1 (card); and whenever the
longest-first word-boundary match resolves the fully-unlocked mode 5, the
payload additionally carries `strike=true` and `opener=true`. -/
theorem c4_override_mode_resolution :
    processNote sampleState (noteAllowlist sampleState) noteCardOrPin =
      [Event.doorLog 9 msgCardOrPin "DOOR_OVERRIDE" noteCardOrPin,
       Event.doorSynth 9 { overridden := some true, timeZone := some 3 }] ∧
    (∀ m : String, resolveTz (mode_txt_of m) = some 5 →
      overridePayload m =
        { overridden := some true, timeZone := some 5,
          strike := some true, opener := some true }) := by
  constructor
  · rfl
  · intro m hm
    simp [overridePayload, hm]

/-- Witness for C4 on a message whose mode phrase resolves to the
fully-unlocked mode. -/
theorem c4_override_mode_resolution_witness :
    overridePayload "q has been overridden. current state is unlock" =
      { overridden := some true, timeZone := some 5,
        strike := some true, opener := some true } :=
  c4_override_mode_resolution.2 "q has been overridden. current state is unlock" (by rfl)

/-- A frame addressed to the notification target is not a status frame. -/
theorem target_notification_not_status (frame : Json)
    (h : targetIs frame "notification" = true) :
    targetIs frame "status" = false := by
  unfold targetIs at h ⊢
  cases hj : jGet frame "target" with
  | none => simp_all
  | some v => cases v <;> simp_all

/-- C10: a notification frame is processed as the in-order concatenation
of the per-notification passes over `notes_iter`, without changing state
or triggering rebuilds; and `notes_iter` is the dict elements of a list
first argument, the singleton of a dict first argument, and otherwise the
dict elements of the whole argument list (non-dicts ignored). -/
theorem c10_notification_batches (st : WsState) (frame : Json) (args : List Json)
    (htype : isType1 frame = true)
    (htgt : targetIs frame "notification" = true)
    (hargs : frameArgs frame = args)
    (hne : args ≠ []) :
    processFrame st frame =
      (st, (notesIter args).flatMap (processNote st (noteAllowlist st)), 0) ∧
    (∀ l rest, args = Json.arr l :: rest → notesIter args = l.filter isObj) ∧
    (∀ fs rest, args = Json.obj fs :: rest → notesIter args = [Json.obj fs]) ∧
    (∀ a rest, args = a :: rest → (∀ l, a ≠ Json.arr l) → (∀ fs, a ≠ Json.obj fs) →
      notesIter args = args.filter isObj) := by
  refine ⟨?_, ?_, ?_, ?_⟩
  · have hns := target_notification_not_status frame htgt
    cases args with
    | nil => exact absurd rfl hne
    | cons a rest => simp [processFrame, htype, htgt, hns, hargs]
  · intro l rest h
    subst h
    rfl
  · intro fs rest h
    subst h
    rfl
  · intro a rest h hl hf
    subst h
    cases a with
    | arr l => exact absurd rfl (hl l)
    | obj fs => exact absurd rfl (hf fs)
    | null => rfl
    | bool b => rfl
    | num n => rfl
    | str s => rfl

/-- Witness for C10 on the batch frame: the published events are the
per-note passes over the two dict elements, in order, with the non-dict
element ignored. -/
theorem c10_notification_batches_witness :
    processFrame sampleState frameBatch =
      (sampleState,
        (notesIter (frameArgs frameBatch)).flatMap
          (processNote sampleState (noteAllowlist sampleState)), 0) ∧
    notesIter (frameArgs frameBatch) = [batchNote1, batchNote2] := by
  have h := c10_notification_batches sampleState frameBatch (frameArgs frameBatch)
    (by rfl) (by rfl) rfl (List.cons_ne_nil _ _)
  refine ⟨h.1, ?_⟩
  have h2 := h.2.1 [batchNote1, Json.num 7, batchNote2] [] (by rfl)
  rw [h2]
  rfl

theorem alLookup_alInsert_self {K V : Type} [DecidableEq K] (k : K) (v : V)
    (m : List (K × V)) : alLookup k (alInsert k v m) = some v := by
  induction m with
  | nil => simp [alInsert, alLookup]
  | cons p t ih =>
      obtain ⟨a, b⟩ := p
      by_cases h : a = k
      · subst h
        simp [alInsert, alLookup]
      · simp [alInsert, alLookup, h, ih]

theorem alLookup_alInsert_ne {K V : Type} [DecidableEq K] (k k' : K) (v : V)
    (m : List (K × V)) (h : k ≠ k') :
    alLookup k (alInsert k' v m) = alLookup k m := by
  induction m with
  | nil => simp [alInsert, alLookup, Ne.symm h]
  | cons p t ih =>
      obtain ⟨a, b⟩ := p
      by_cases ha : a = k'
      · subst ha
        simp [alInsert, alLookup, Ne.symm h]
      · simp [alInsert, alLookup, ha, ih]

/-- The merge step leaves the by-id table alone except for the row's own
binding. -/
theorem mergeReader_byId (allowed : List Int) (m : DoorMaps) (rd : PartitionReader) :
    (mergeReader allowed m rd).reader_by_id =
      (match rd.rid, rd.doorId with
       | some r, some d =>
           if allowed ≠ [] ∧ d ∉ allowed then m.reader_by_id
           else alInsert r d m.reader_by_id
       | _, _ => m.reader_by_id) := by
  rcases hr : rd.rid with _ | r
  · simp [mergeReader, hr]
  · rcases hd : rd.doorId with _ | d
    · simp [mergeReader, hr, hd]
    · simp only [mergeReader, hr, hd]
      split
      · rfl
      · split
        · split
          · rfl
          · rfl
        · rfl

/-- Folding insertions over keys a key is not among leaves its lookup
unchanged. -/
theorem alLookup_foldl_alInsert_not_mem {K V : Type} [DecidableEq K]
    (k : K) (keys : List K) (d : V) (m : List (K × V)) (h : k ∉ keys) :
    alLookup k (keys.foldl (fun acc k' => alInsert k' d acc) m) = alLookup k m := by
  induction keys generalizing m with
  | nil => rfl
  | cons a t ih =>
      rw [List.foldl_cons, ih _ (fun hm => h (List.mem_cons_of_mem a hm)),
        alLookup_alInsert_ne _ _ _ _ (fun h0 => h (by rw [h0]; exact List.mem_cons_self a t))]

/-- The by-name table after the merge step is the tree table with the
row's name keys inserted, when the row applies. -/
theorem mergeReader_byName_eq (allowed : List Int) (m : DoorMaps) (rd : PartitionReader) :
    (mergeReader allowed m rd).reader_by_name =
      (if rowApplies allowed rd = true then
        (rowNameKeys rd).foldl (fun acc k => alInsert k (rd.doorId.getD 0) acc) m.reader_by_name
       else m.reader_by_name) := by
  rcases hr : rd.rid with _ | r
  · simp [mergeReader, rowApplies, hr]
  · rcases hd : rd.doorId with _ | d
    · simp [mergeReader, rowApplies, hr, hd]
    · by_cases hg : allowed ≠ [] ∧ d ∉ allowed
      · simp [mergeReader, rowApplies, hr, hd, hg]
      · have happ : rowApplies allowed rd = true := by
          simp [rowApplies, hr, hd, hg]
        rw [if_pos happ]
        simp only [mergeReader, hr, hd, if_neg hg]
        by_cases hrn : pyStrip rd.rname = ""
        · simp [rowNameKeys, hrn]
        · by_cases hb : strip_reader_suffix (pyStrip rd.rname) ≠ ""
              ∧ strip_reader_suffix (pyStrip rd.rname) ≠ pyLower (pyStrip rd.rname)
          · simp [rowNameKeys, hrn, hb]
          · simp [rowNameKeys, hrn, hb]

/-- The merge step leaves by-name keys outside `rowNameKeys` unchanged. -/
theorem mergeReader_byName_untouched (allowed : List Int) (m : DoorMaps)
    (rd : PartitionReader) (k : String)
    (h : ¬(rowApplies allowed rd = true ∧ k ∈ rowNameKeys rd)) :
    alLookup k (mergeReader allowed m rd).reader_by_name = alLookup k m.reader_by_name := by
  rw [mergeReader_byName_eq]
  by_cases happ : rowApplies allowed rd = true
  · rw [if_pos happ]
    exact alLookup_foldl_alInsert_not_mem k _ _ _ (fun hm => h ⟨happ, hm⟩)
  · rw [if_neg happ]

/-- The merge step leaves by-id keys other than the row's id unchanged. -/
theorem mergeReader_byId_untouched (allowed : List Int) (m : DoorMaps)
    (rd : PartitionReader) (r : Int)
    (h : ¬(rowApplies allowed rd = true ∧ rd.rid = some r)) :
    alLookup r (mergeReader allowed m rd).reader_by_id = alLookup r m.reader_by_id := by
  rw [mergeReader_byId]
  rcases hr : rd.rid with _ | r'
  · rcases hd : rd.doorId with _ | d <;> rfl
  · rcases hd : rd.doorId with _ | d
    · rfl
    · by_cases hg : allowed ≠ [] ∧ d ∉ allowed
      · simp [hg]
      · have happ : rowApplies allowed rd = true := by
          simp [rowApplies, hr, hd, hg]
        have hne : r ≠ r' := by
          intro h0
          exact h ⟨happ, by rw [hr, h0]⟩
        simp [hg, alLookup_alInsert_ne _ _ _ _ hne]

/-- An applying row's by-id binding after the merge step. -/
theorem mergeReader_byId_set (allowed : List Int) (m : DoorMaps)
    (rd : PartitionReader) (r d : Int)
    (hr : rd.rid = some r) (hd : rd.doorId = some d)
    (hg : ¬(allowed ≠ [] ∧ d ∉ allowed)) :
    alLookup r (mergeReader allowed m rd).reader_by_id = some d := by
  rw [mergeReader_byId, hr, hd]
  simp [hg, alLookup_alInsert_self]

theorem touchedIds_cons_eq (allowed : List Int) (rd : PartitionReader)
    (rest : List PartitionReader) :
    touchedIds allowed (rd :: rest) =
      (if rowApplies allowed rd = true then rd.rid.toList else []) ++
        touchedIds allowed rest := by
  by_cases happ : rowApplies allowed rd = true
  · cases hrid : rd.rid <;>
      simp [touchedIds, List.filter_cons, happ, List.filterMap_cons, hrid]
  · simp [touchedIds, List.filter_cons, happ]

theorem touchedIds_cons (allowed : List Int) (rd : PartitionReader)
    (rest : List PartitionReader) (r : Int)
    (h : r ∉ touchedIds allowed (rd :: rest)) :
    ¬(rowApplies allowed rd = true ∧ rd.rid = some r) ∧ r ∉ touchedIds allowed rest := by
  rw [touchedIds_cons_eq] at h
  simp only [List.mem_append, not_or] at h
  refine ⟨?_, h.2⟩
  rintro ⟨happ, hrid⟩
  exact h.1 (by simp [happ, hrid])

theorem touchedNames_cons_eq (allowed : List Int) (rd : PartitionReader)
    (rest : List PartitionReader) :
    touchedNames allowed (rd :: rest) =
      (if rowApplies allowed rd = true then rowNameKeys rd else []) ++
        touchedNames allowed rest := by
  by_cases happ : rowApplies allowed rd = true
  · simp [touchedNames, List.filter_cons, happ]
  · simp [touchedNames, List.filter_cons, happ]

theorem touchedNames_cons (allowed : List Int) (rd : PartitionReader)
    (rest : List PartitionReader) (k : String)
    (h : k ∉ touchedNames allowed (rd :: rest)) :
    ¬(rowApplies allowed rd = true ∧ k ∈ rowNameKeys rd) ∧ k ∉ touchedNames allowed rest := by
  rw [touchedNames_cons_eq] at h
  simp only [List.mem_append, not_or] at h
  refine ⟨?_, h.2⟩
  rintro ⟨happ, hmem⟩
  exact h.1 (by simp [happ, hmem])

/-- Keys not written by any partition row keep their value across the
whole merge fold. -/
theorem foldMerge_byId_untouched (allowed : List Int)
    (extra : List PartitionReader) (m : DoorMaps) (r : Int)
    (h : r ∉ touchedIds allowed extra) :
    alLookup r (extra.foldl (mergeReader allowed) m).reader_by_id =
      alLookup r m.reader_by_id := by
  induction extra generalizing m with
  | nil => rfl
  | cons rd rest ih =>
      obtain ⟨h1, h2⟩ := touchedIds_cons allowed rd rest r h
      rw [List.foldl_cons, ih _ h2, mergeReader_byId_untouched allowed m rd r h1]

theorem foldMerge_byName_untouched (allowed : List Int)
    (extra : List PartitionReader) (m : DoorMaps) (k : String)
    (h : k ∉ touchedNames allowed extra) :
    alLookup k (extra.foldl (mergeReader allowed) m).reader_by_name =
      alLookup k m.reader_by_name := by
  induction extra generalizing m with
  | nil => rfl
  | cons rd rest ih =>
      obtain ⟨h1, h2⟩ := touchedNames_cons allowed rd rest k h
      rw [List.foldl_cons, ih _ h2, mergeReader_byName_untouched allowed m rd k h1]

/-- C6 amended: the explicit partition reader list is merged by dict
assignment, not gap-filling.  By-id and by-name entries whose keys no
partition row writes keep their tree-derived values, and for a row with
an integer reader id and an in-allowlist integer door reference whose id
no later row writes, the merged by-id binding is the partition list's
door — overwriting any tree-derived binding for that reader. -/
theorem c6_reader_merge_overwrites (allowed : List Int) (sites : List TNode) :
    (∀ extra r, r ∉ touchedIds allowed extra →
      alLookup r (build_door_map allowed sites extra).reader_by_id =
        alLookup r (buildTreeMaps allowed sites).reader_by_id) ∧
    (∀ extra k, k ∉ touchedNames allowed extra →
      alLookup k (build_door_map allowed sites extra).reader_by_name =
        alLookup k (buildTreeMaps allowed sites).reader_by_name) ∧
    (∀ pre post rd r d, rd.rid = some r → rd.doorId = some d →
      ¬(allowed ≠ [] ∧ d ∉ allowed) → r ∉ touchedIds allowed post →
      alLookup r (build_door_map allowed sites (pre ++ rd :: post)).reader_by_id =
        some d) := by
  refine ⟨?_, ?_, ?_⟩
  · intro extra r h
    exact foldMerge_byId_untouched allowed extra _ r h
  · intro extra k h
    exact foldMerge_byName_untouched allowed extra _ k h
  · intro pre post rd r d hr hd hg hpost
    rw [build_door_map, List.foldl_append, List.foldl_cons]
    rw [foldMerge_byId_untouched allowed post _ r hpost]
    exact mergeReader_byId_set allowed _ rd r d hr hd hg

/-- C6 counterexample: reader 5 is resolved from the tree to door 10 (by
id and by name), door 11 is also inside the allowlist, and merging the
partition row rebinding reader 5 to door 11 alters both tree-derived
entries instead of leaving them as the claim states. -/
theorem c6_counterexample :
    alLookup 5 (buildTreeMaps [10, 11] mergeTree).reader_by_id = some 10 ∧
    alLookup "front reader" (buildTreeMaps [10, 11] mergeTree).reader_by_name = some 10 ∧
    (11 : Int) ∈ ([10, 11] : List Int) ∧
    alLookup 5 (build_door_map [10, 11] mergeTree mergeExtra).reader_by_id = some 11 ∧
    alLookup "front reader" (build_door_map [10, 11] mergeTree mergeExtra).reader_by_name =
      some 11 := by
  exact ⟨rfl, rfl, by decide, rfl, rfl⟩

/-- Witness for C6 on the sample tree and partition row. -/
theorem c6_reader_merge_overwrites_witness :
    alLookup 5 (build_door_map [10, 11] mergeTree ([] ++ ⟨some 5, some 11, "Front Reader"⟩ :: [])).reader_by_id = some 11 ∧
    alLookup 42 (build_door_map [10, 11] mergeTree mergeExtra).reader_by_id =
      alLookup 42 (buildTreeMaps [10, 11] mergeTree).reader_by_id ∧
    alLookup "zzz" (build_door_map [10, 11] mergeTree mergeExtra).reader_by_name =
      alLookup "zzz" (buildTreeMaps [10, 11] mergeTree).reader_by_name := by
  have h := c6_reader_merge_overwrites [10, 11] mergeTree
  exact ⟨h.2.2 [] [] ⟨some 5, some 11, "Front Reader"⟩ 5 11 rfl rfl (by decide) (by decide),
    h.1 mergeExtra 42 (by decide), h.2.1 mergeExtra "zzz" (by decide)⟩

end ProtectorNet
